import Mathlib

/-
Verification development for the AOC repository (Aggregation Ooni Command-line).

Shallow embedding conventions:
* Python ints are ℤ, Python floats arising from divisions of ints are ℚ.
* Python `None` is `Option.none`; a field that can hold `None` has an `Option` type.
* `datetime` values are modelled at calendar-day granularity as ℤ day indices
  (the code only ever compares, sorts and steps dates by whole days; the
  paginated adapter truncates `measurement_start_time` to its date part).
* A Python function that can raise is modelled as `Option`- or `Except`-valued:
  `Except.error msg` models a raised exception (e.g. a failed `assert`),
  while the adapter's error *strings* (returned values) stay in the `ok` channel
  as `AdapterResult.errorString`.
* Remote HTTP interaction is modelled by oracle parameters: `get_measurements`
  receives the response as a function of the request parameters it builds;
  the paginated adapter's continuation-following loop (AOCW repo,
  AOCBackend.py lines 219-247) is abstracted as an oracle returning either an
  error string outcome or the accumulated records of the exhausted chain.
-/

namespace AOC

/-- Day Bucket: `MeasurementDay` fields from AOCBackend.py lines 14-45.
Derived ratio fields are `none` exactly when `measurement_count == 0`. -/
structure MeasurementDay where
  measurement_count : ℤ
  anomaly_count : ℤ
  failure_count : ℤ
  confirmed_count : ℤ
  start_day : ℤ
  input : Option String
  anomaly_ratio : Option ℚ
  failure_ratio : Option ℚ
  confirmed_ratio : Option ℚ
  weird_behavior_ratio : Option ℚ
deriving DecidableEq

/-- Constructor `MeasurementDay.__init__` (AOCBackend.py lines 19-45): asserts all
four counts non-negative (modelled as `none` = raised AssertionError), then stores
the counts and computes each derived ratio, `None` when `measurement_count == 0`. -/
def MeasurementDay.init (measurement_count anomaly_count failure_count : ℤ)
    (start_day : ℤ) (inpt : Option String) (confirmed_count : ℤ) :
    Option MeasurementDay :=
  if 0 ≤ measurement_count ∧ 0 ≤ anomaly_count ∧ 0 ≤ failure_count ∧ 0 ≤ confirmed_count then
    some { measurement_count := measurement_count
           anomaly_count := anomaly_count
           failure_count := failure_count
           confirmed_count := confirmed_count
           start_day := start_day
           input := inpt
           anomaly_ratio :=
             if measurement_count ≠ 0 then some ((anomaly_count : ℚ) / (measurement_count : ℚ)) else none
           failure_ratio :=
             if measurement_count ≠ 0 then some ((failure_count : ℚ) / (measurement_count : ℚ)) else none
           confirmed_ratio :=
             if measurement_count ≠ 0 then some ((confirmed_count : ℚ) / (measurement_count : ℚ)) else none
           weird_behavior_ratio :=
             if measurement_count ≠ 0 then
               some (((confirmed_count + anomaly_count + failure_count : ℤ) : ℚ) / (measurement_count : ℚ))
             else none }
  else none

/-- Range Aggregate: `MeasurementSet` fields from AOCBackend.py lines 53-72. -/
structure MeasurementSet where
  days : List MeasurementDay
  total_measurements : ℤ
  total_anomalies : ℤ
  total_failures : ℤ
  total_confirmed : ℤ
  total_weird_behavior : ℤ

/-- Python `list.sort(key=lambda x: x.start_day)`: a stable sort by the day key. -/
def daySort (l : List MeasurementDay) : List MeasurementDay :=
  l.mergeSort (fun a b => a.start_day ≤ b.start_day)

/-- Constructor `MeasurementSet.__init__` (AOCBackend.py lines 57-72): sorts the
day list in place by `start_day`, then sums each total over the (same) list and
sets `total_weird_behavior = total_confirmed + total_anomalies + total_failures`. -/
def MeasurementSet.init (days : List MeasurementDay) : MeasurementSet :=
  let sorted := daySort days
  { days := sorted
    total_measurements := (sorted.map (fun x => x.measurement_count)).sum
    total_anomalies := (sorted.map (fun x => x.anomaly_count)).sum
    total_failures := (sorted.map (fun x => x.failure_count)).sum
    total_confirmed := (sorted.map (fun x => x.confirmed_count)).sum
    total_weird_behavior :=
      (sorted.map (fun x => x.confirmed_count)).sum
        + (sorted.map (fun x => x.anomaly_count)).sum
        + (sorted.map (fun x => x.failure_count)).sum }

/-- `MeasurementSet.add_day` (AOCBackend.py lines 98-108): appends the day,
re-sorts, and increments `total_measurements`, `total_anomalies`,
`total_confirmed` and `total_failures` -- and only those four fields;
the source never touches `total_weird_behavior` here. -/
def MeasurementSet.add_day (s : MeasurementSet) (day : MeasurementDay) : MeasurementSet :=
  { days := daySort (s.days ++ [day])
    total_measurements := s.total_measurements + day.measurement_count
    total_anomalies := s.total_anomalies + day.anomaly_count
    total_confirmed := s.total_confirmed + day.confirmed_count
    total_failures := s.total_failures + day.failure_count
    total_weird_behavior := s.total_weird_behavior }

/-- `MeasurementSet.get_avg_anomalies` (AOCBackend.py lines 74-78). -/
def MeasurementSet.get_avg_anomalies (s : MeasurementSet) : ℚ :=
  if s.total_measurements ≠ 0 then (s.total_anomalies : ℚ) / (s.total_measurements : ℚ) else -1

/-- `MeasurementSet.get_avg_failures` (AOCBackend.py lines 80-84). -/
def MeasurementSet.get_avg_failures (s : MeasurementSet) : ℚ :=
  if s.total_measurements ≠ 0 then (s.total_failures : ℚ) / (s.total_measurements : ℚ) else -1

/-- `MeasurementSet.get_avg_confirmed` (AOCBackend.py lines 86-90). -/
def MeasurementSet.get_avg_confirmed (s : MeasurementSet) : ℚ :=
  if s.total_measurements ≠ 0 then (s.total_confirmed : ℚ) / (s.total_measurements : ℚ) else -1

/-- `MeasurementSet.get_avg_weirds` (AOCBackend.py lines 92-96). -/
def MeasurementSet.get_avg_weirds (s : MeasurementSet) : ℚ :=
  if s.total_measurements ≠ 0 then (s.total_weird_behavior : ℚ) / (s.total_measurements : ℚ) else -1

/-- Watcher Entry: one value of the `urls` map of `PermaConfig`
(AOCW_lib.py lines 60-69 and 160-167). Rates are ℚ with `-1` the
never-measured sentinel; `change` is `none` until a comparison stores one;
timestamps are strings (`YYYY-mm-dd HH:MM:SS`) or `none`. -/
structure WatcherEntry where
  previous_rate : ℚ
  current_rate : ℚ
  change : Option ℚ
  last_check : Option String
  last_update : Option String
deriving DecidableEq

/-- Entry created by `PermaConfig.add_entry` for a new url
(AOCW_lib.py lines 160-167). -/
def freshEntry : WatcherEntry :=
  { previous_rate := -1
    current_rate := -1
    change := none
    last_check := none
    last_update := none }

/-- Change computed by the run loop for a fetched ratio (AOCW_lib.py lines
614-618): `0` when the stored `current_rate` is the sentinel `-1`, else
`ratio - current_rate`. -/
def computedChange (e : WatcherEntry) (ratio : ℚ) : ℚ :=
  if e.current_rate = -1 then 0 else ratio - e.current_rate

/-- Per-url body of `AOCW.run` after a successful fetch (AOCW_lib.py lines
607-627), acting on this url's Watcher Entry. Returns the updated entry and
whether the alert (Notifier call + alert log record, lines 625-627) fires:
* `ratio == -1` (no measurements): only `last_check` is set, no alert;
* otherwise `change` is computed per `computedChange`, the entry is shifted
  (`previous_rate := current_rate`, `current_rate := ratio`, both timestamps
  set), and the alert fires iff `change > critical_anomaly_rate` (strict). -/
def runUpdate (e : WatcherEntry) (ratio critical_anomaly_rate : ℚ) (now : String) :
    WatcherEntry × Bool :=
  if ratio = -1 then
    ({ e with last_check := some now }, false)
  else
    let change := computedChange e ratio
    ({ previous_rate := e.current_rate
       current_rate := ratio
       change := some change
       last_check := some now
       last_update := some now },
     decide (change > critical_anomaly_rate))

/-- Result channel of an adapter call that did not raise: either the list of
Day Buckets or one of the returned error strings. -/
inductive AdapterResult where
  | days (l : List MeasurementDay)
  | errorString (s : String)
deriving DecidableEq

/-- Message of the date-range asserts at AOCBackend.py lines 135 and 195. -/
def assertRangeMsg : String := "since date should be before until date"

/-- Message of the count asserts in `MeasurementDay.__init__`. -/
def assertCountMsg : String := "Negative measurement ammount does not makes sense"

/-- Predicate singling out a raised exception among adapter outcomes. -/
def isRaised : Except String AdapterResult → Bool
  | .error _ => true
  | .ok _ => false

/-- Request parameters `get_measurements` sends (AOCBackend.py lines 143-157).
The structure has no domain field: the `if domain:` branch (lines 151-153) is
`pass`, its `params['domain']` assignment being commented out in the source. -/
structure AggParams where
  since : ℤ
  until_d : ℤ
  probe_cc : String
  axis_x : String
  test_name : Option String
deriving DecidableEq

/-- One row of the pre-aggregated endpoint's `result` list
(AOCBackend.py lines 177-185). -/
structure AggRow where
  measurement_count : ℤ
  anomaly_count : ℤ
  failure_count : ℤ
  confirmed_count : ℤ
  measurement_start_day : ℤ

/-- Response of the pre-aggregated endpoint as `get_measurements` inspects it:
the status code, the truthiness of the `error` key, and the `result` list
(`none` for an absent key; Python also treats an empty list as falsy at
line 173, handled at the use site). -/
structure AggResponse where
  status_code : ℤ
  error : Bool
  result : Option (List AggRow)

/-- Python truthiness of the optional `test_name` argument (`if test_name:`):
false for `None` and for the empty string. -/
def strTruthy : Option String → Bool
  | none => false
  | some s => !(s == "")

/-- Day Buckets built by `get_measurements`'s return comprehension
(AOCBackend.py lines 177-185), in row order; `none` models the AssertionError
raised by `MeasurementDay.__init__` on a negative count. -/
def aggRowsToDays (domain : Option String) : List AggRow → Option (List MeasurementDay)
  | [] => some []
  | r :: rest =>
    match MeasurementDay.init r.measurement_count r.anomaly_count r.failure_count
        r.measurement_start_day domain r.confirmed_count with
    | none => none
    | some d =>
      match aggRowsToDays domain rest with
      | none => none
      | some ds => some (d :: ds)

/-- `get_measurements` (AOCBackend.py lines 117-185). The remote call
`requests.get(url, params)` is the `oracle` argument from the built request
parameters to a response. `Except.error` models a raised exception (the range
assert, or a count assert while building the result); `.ok (.errorString _)`
are the returned error values NETWORK_ERROR / BAD_ARGUMENTS / UNKNOWN. -/
def get_measurements (since until_d : ℤ) (domain : Option String) (probe_cc : String)
    (test_name : Option String) (oracle : AggParams → AggResponse) :
    Except String AdapterResult :=
  if since ≤ until_d then
    let params : AggParams :=
      { since := since
        until_d := until_d
        probe_cc := probe_cc
        axis_x := "measurement_start_day"
        test_name := if strTruthy test_name then test_name else none }
    -- `if domain:` performs no change to params (AOCBackend.py lines 151-153)
    let req := oracle params
    if req.status_code ≠ 200 then .ok (.errorString "network_error")
    else if req.error then .ok (.errorString "bad_arguments")
    else
      match req.result with
      | none => .ok (.errorString "unknown")
      | some [] => .ok (.errorString "unknown")
      | some rows =>
        match aggRowsToDays domain rows with
        | none => .error assertCountMsg
        | some ds => .ok (.days ds)
  else .error assertRangeMsg

/-- One record of the paginated endpoint as the aggregation step reads it
(AOCBackend.py lines 264-269): the calendar day of `measurement_start_time`
(the code truncates the string to its first 10 characters, i.e. the date part)
and the `anomaly`, `failure`, `confirmed` fields. -/
structure ListApiRecord where
  start_day : ℤ
  anomaly : ℤ
  failure : ℤ
  confirmed : ℤ

/-- Outcome of the continuation-following request loop of
`get_measurements_list_api` (AOCBackend.py lines 219-247): either one of the
error strings returned from inside the loop, or the records accumulated over
the exhausted continuation chain. -/
inductive PaginationOutcome where
  | fail (err : String)
  | records (rs : List ListApiRecord)

/-- Counts of one pre-allocated day entry (AOCBackend.py lines 255-260). -/
structure DayCounts where
  anomaly_count : ℤ
  measurement_count : ℤ
  failure_count : ℤ
  confirmed_count : ℤ
deriving DecidableEq

/-- Zero counts a day entry is pre-allocated with. -/
def DayCounts.zero : DayCounts :=
  { anomaly_count := 0, measurement_count := 0, failure_count := 0, confirmed_count := 0 }

/-- Day-preallocation loop of `get_measurements_list_api` (AOCBackend.py lines
249-261): starting at day `curr`, one `(day, zero counts)` entry per
iteration, stepping one day forward, for `n` iterations. -/
def allocFrom (curr : ℤ) : Nat → List (ℤ × DayCounts)
  | 0 => []
  | n + 1 => (curr, DayCounts.zero) :: allocFrom (curr + 1) n

/-- The `while curr_day <= last_day` loop runs exactly
`(last_day - curr_day + 1).toNat` times (zero times when `since > until`). -/
def allocDays (sinceDay lastDay : ℤ) : List (ℤ × DayCounts) :=
  allocFrom sinceDay (lastDay - sinceDay + 1).toNat

/-- Ascending list of the calendar days of `[sinceDay, lastDay]`, as the
preallocation loop enumerates them. -/
def calendarDays (sinceDay lastDay : ℤ) : List ℤ :=
  (allocDays sinceDay lastDay).map Prod.fst

/-- One iteration of the record-summing loop (AOCBackend.py lines 264-269),
incrementing the counts stored under the record's day key; `none` models the
`KeyError` raised when that day is not one of the pre-allocated keys. -/
def addRecord (days : List (ℤ × DayCounts)) (m : ListApiRecord) :
    Option (List (ℤ × DayCounts)) :=
  if days.any (fun p => p.1 = m.start_day) then
    some (days.map (fun p =>
      if p.1 = m.start_day then
        (p.1, { anomaly_count := p.2.anomaly_count + m.anomaly
                measurement_count := p.2.measurement_count + 1
                failure_count := p.2.failure_count + m.failure
                confirmed_count := p.2.confirmed_count + m.confirmed })
      else p))
  else none

/-- The record-summing loop over all fetched records. -/
def foldRecords : List (ℤ × DayCounts) → List ListApiRecord → Option (List (ℤ × DayCounts))
  | days, [] => some days
  | days, m :: ms =>
    match addRecord days m with
    | none => none
    | some days2 => foldRecords days2 ms

/-- Final comprehension of `get_measurements_list_api` (AOCBackend.py lines
272-281): one `MeasurementDay` per `(day, metrics)` item, in the dict's
insertion order; `none` models an AssertionError from the Day Bucket
constructor. -/
def metricsToDays (domain : Option String) :
    List (ℤ × DayCounts) → Option (List MeasurementDay)
  | [] => some []
  | (d, metrics) :: rest =>
    match MeasurementDay.init metrics.measurement_count metrics.anomaly_count
        metrics.failure_count d domain metrics.confirmed_count with
    | none => none
    | some b =>
      match metricsToDays domain rest with
      | none => none
      | some bs => some (b :: bs)

/-- `get_measurements_list_api` (AOCBackend.py lines 187-281), with the request
loop abstracted as the `fetch` oracle (see `PaginationOutcome`). -/
def get_measurements_list_api (sinceDay untilDay : ℤ) (domain : Option String)
    (fetch : Unit → PaginationOutcome) : Except String AdapterResult :=
  if sinceDay ≤ untilDay then
    match fetch () with
    | .fail e => .ok (.errorString e)
    | .records rs =>
      match foldRecords (allocDays sinceDay untilDay) rs with
      | none => .error "KeyError"
      | some days =>
        match metricsToDays domain days with
        | none => .error assertCountMsg
        | some bs => .ok (.days bs)
  else .error assertRangeMsg

/-- Day Bucket with all counts zero and all ratios absent, as built for a day
of the range that received no records. -/
def zeroBucket (d : ℤ) (dom : Option String) : MeasurementDay :=
  { measurement_count := 0, anomaly_count := 0, failure_count := 0, confirmed_count := 0,
    start_day := d, input := dom, anomaly_ratio := none, failure_ratio := none,
    confirmed_ratio := none, weird_behavior_ratio := none }

/-- Relabelling of a Day Bucket's stored input identifier. -/
def relabelDay (dom : Option String) (d : MeasurementDay) : MeasurementDay :=
  { d with input := dom }

/-- Relabelling of every Day Bucket of a successful adapter outcome; errors
are untouched. -/
def relabelReturn (dom : Option String) :
    Except String AdapterResult → Except String AdapterResult
  | .ok (.days l) => .ok (.days (l.map (relabelDay dom)))
  | r => r

/-- Fixed oracle answering every pre-aggregated request with an empty success
response. -/
def oracle0 : AggParams → AggResponse :=
  fun _ => { status_code := 200, error := false, result := none }

/-- Fixed pagination oracle: the continuation chain is exhausted with zero
records. -/
def fetch0 : Unit → PaginationOutcome := fun _ => .records []

/-- Status string `PermaConfig.ERROR.OK` (AOCW_lib.py line 28). -/
def ERROR_OK : String := "ok"

/-- Status string `PermaConfig.ERROR.COULD_NOT_ACCESS_CONFIG_FILE`
(AOCW_lib.py line 30), the spec's ConfigUnavailable. -/
def COULD_NOT_ACCESS_CONFIG_FILE : String := "could_not_access_config_file"

/-- Watcher Configuration: `PermaConfig` (AOCW_lib.py lines 21-95), with the
`urls` dict modelled as an association list. -/
structure PermaConfig where
  state : String
  active : Bool
  list_file : Option String
  log_file : Option String
  n_days_before : ℤ
  critical_anomaly_rate : ℚ
  mail_to_notify : String
  sender_mail : Option String
  sender_mail_pswd : Option String
  urls : List (String × WatcherEntry)
deriving DecidableEq

/-- The object `PermaConfig()` the run loop starts from (AOCW_lib.py line 564):
`__init__` with every argument at its default (lines 70-95), `state` keeping
the class-level value `ok`. -/
def PermaConfig.fresh : PermaConfig :=
  { state := ERROR_OK
    active := true
    list_file := none
    log_file := none
    n_days_before := 1
    critical_anomaly_rate := 1/10
    mail_to_notify := ""
    sender_mail := none
    sender_mail_pswd := none
    urls := [] }

/-- Parsed JSON content of the config file as `load` reads it: one optional
entry per key (`none` = the key is missing, so reading it raises `KeyError`).
Each value carries the type `load` stores into the field. -/
structure ConfigData where
  active : Option Bool
  list_file : Option (Option String)
  log_file : Option (Option String)
  n_days_before : Option ℤ
  critical_anomaly_rate : Option ℚ
  urls : Option (List (String × WatcherEntry))
  sender_mail_pswd : Option (Option String)
  sender_mail : Option (Option String)
  mail_to_notify : Option String

/-- Backing store as `load` sees it: either unreadable / not valid JSON, or a
parsed JSON object. -/
inductive StoreContent where
  | unreadable
  | parsed (d : ConfigData)

/-- `PermaConfig.load` (AOCW_lib.py lines 133-155). The `try` body assigns the
nine fields one at a time in source order; a missing key raises `KeyError`
right where it is read, and the bare `except` catches it, sets `state` to
`COULD_NOT_ACCESS_CONFIG_FILE` and returns -- so the fields assigned before
the failing read keep their newly loaded values. The `unreadable` case (file
unreadable or not JSON) fails before any assignment. -/
def PermaConfig.load (c : PermaConfig) (store : StoreContent) : PermaConfig :=
  match store with
  | .unreadable => { c with state := COULD_NOT_ACCESS_CONFIG_FILE }
  | .parsed d =>
    match d.active with
    | none => { c with state := COULD_NOT_ACCESS_CONFIG_FILE }
    | some v1 =>
      let c1 := { c with active := v1 }
      match d.list_file with
      | none => { c1 with state := COULD_NOT_ACCESS_CONFIG_FILE }
      | some v2 =>
        let c2 := { c1 with list_file := v2 }
        match d.log_file with
        | none => { c2 with state := COULD_NOT_ACCESS_CONFIG_FILE }
        | some v3 =>
          let c3 := { c2 with log_file := v3 }
          match d.n_days_before with
          | none => { c3 with state := COULD_NOT_ACCESS_CONFIG_FILE }
          | some v4 =>
            let c4 := { c3 with n_days_before := v4 }
            match d.critical_anomaly_rate with
            | none => { c4 with state := COULD_NOT_ACCESS_CONFIG_FILE }
            | some v5 =>
              let c5 := { c4 with critical_anomaly_rate := v5 }
              match d.urls with
              | none => { c5 with state := COULD_NOT_ACCESS_CONFIG_FILE }
              | some v6 =>
                let c6 := { c5 with urls := v6 }
                match d.sender_mail_pswd with
                | none => { c6 with state := COULD_NOT_ACCESS_CONFIG_FILE }
                | some v7 =>
                  let c7 := { c6 with sender_mail_pswd := v7 }
                  match d.sender_mail with
                  | none => { c7 with state := COULD_NOT_ACCESS_CONFIG_FILE }
                  | some v8 =>
                    let c8 := { c7 with sender_mail := v8 }
                    match d.mail_to_notify with
                    | none => { c8 with state := COULD_NOT_ACCESS_CONFIG_FILE }
                    | some v9 => { c8 with mail_to_notify := v9 }

/-- Parseable store content carrying only an `active` value of `false`: every
other key is missing, so `load` fails at the `list_file` read. -/
def badStore : ConfigData :=
  { active := some false, list_file := none, log_file := none, n_days_before := none,
    critical_anomaly_rate := none, urls := none, sender_mail_pswd := none,
    sender_mail := none, mail_to_notify := none }

end AOC

namespace AOC

/-- C1: the claimed invariant fails on the code. `add_day` increments the four
plain totals but never `total_weird_behavior` (AOCBackend.py lines 98-108), so
after adding a day with `anomaly_count = 1` to an empty set,
`total_weird_behavior` is still `0` while
`total_confirmed + total_anomalies + total_failures = 1`. This theorem
evaluates the code at that failing input. -/
theorem addDay_totalWeird_stale :
    ∃ d, MeasurementDay.init 1 1 0 0 (some "a") 0 = some d
      ∧ ((MeasurementSet.init []).add_day d).total_weird_behavior = 0
      ∧ ((MeasurementSet.init []).add_day d).total_confirmed
          + ((MeasurementSet.init []).add_day d).total_anomalies
          + ((MeasurementSet.init []).add_day d).total_failures = 1 := by
  refine ⟨_, rfl, ?_, ?_⟩ <;>
    simp [MeasurementSet.init, MeasurementSet.add_day, daySort]

/-- C9: each average-rate accessor of a Range Aggregate returns the sentinel `-1`
if and only if `total_measurements = 0` (given the totals are non-negative, as
they are for any set built from valid Day Buckets), and otherwise returns
exactly the corresponding total divided by `total_measurements`. -/
theorem avg_accessors_sentinel (s : MeasurementSet)
    (hm : 0 ≤ s.total_measurements) (ha : 0 ≤ s.total_anomalies)
    (hf : 0 ≤ s.total_failures) (hc : 0 ≤ s.total_confirmed)
    (hw : 0 ≤ s.total_weird_behavior) :
    (s.get_avg_anomalies = -1 ↔ s.total_measurements = 0)
    ∧ (s.get_avg_failures = -1 ↔ s.total_measurements = 0)
    ∧ (s.get_avg_confirmed = -1 ↔ s.total_measurements = 0)
    ∧ (s.get_avg_weirds = -1 ↔ s.total_measurements = 0)
    ∧ (s.total_measurements ≠ 0 →
        s.get_avg_anomalies = (s.total_anomalies : ℚ) / (s.total_measurements : ℚ)
        ∧ s.get_avg_failures = (s.total_failures : ℚ) / (s.total_measurements : ℚ)
        ∧ s.get_avg_confirmed = (s.total_confirmed : ℚ) / (s.total_measurements : ℚ)
        ∧ s.get_avg_weirds = (s.total_weird_behavior : ℚ) / (s.total_measurements : ℚ)) := by
  have key : ∀ t : ℤ, 0 ≤ t →
      ((if s.total_measurements ≠ 0 then (t : ℚ) / (s.total_measurements : ℚ) else -1) = -1
        ↔ s.total_measurements = 0) := by
    intro t ht
    split
    · rename_i hne
      have hpos : (0 : ℚ) < (s.total_measurements : ℚ) := by
        exact_mod_cast lt_of_le_of_ne hm (fun h => hne h.symm)
      have hnn : (0 : ℚ) ≤ (t : ℚ) / (s.total_measurements : ℚ) :=
        div_nonneg (by exact_mod_cast ht) (le_of_lt hpos)
      constructor
      · intro hcontra
        exact absurd (hcontra ▸ hnn) (by norm_num)
      · intro h
        exact absurd h hne
    · rename_i hz
      simp at hz
      simp [hz]
  refine ⟨key _ ha, key _ hf, key _ hc, key _ hw, ?_⟩
  intro hne
  refine ⟨?_, ?_, ?_, ?_⟩ <;>
    simp only [MeasurementSet.get_avg_anomalies, MeasurementSet.get_avg_failures,
      MeasurementSet.get_avg_confirmed, MeasurementSet.get_avg_weirds, if_pos hne]

/-- C9 witness: the accessor theorem applied to the concrete Range Aggregate built
from one Day Bucket with 2 measurements and 1 anomaly. -/
theorem avg_accessors_sentinel_witness :
    ∃ d, MeasurementDay.init 2 1 0 5 (some "a") 0 = some d
      ∧ 0 ≤ (MeasurementSet.init [d]).total_measurements
      ∧ ((MeasurementSet.init [d]).get_avg_anomalies = -1
          ↔ (MeasurementSet.init [d]).total_measurements = 0) := by
  refine ⟨_, rfl, ?_, ?_⟩
  · simp [MeasurementSet.init, daySort, MeasurementDay.init]
  · exact (avg_accessors_sentinel (MeasurementSet.init [_])
      (by simp [MeasurementSet.init, daySort, MeasurementDay.init])
      (by simp [MeasurementSet.init, daySort, MeasurementDay.init])
      (by simp [MeasurementSet.init, daySort, MeasurementDay.init])
      (by simp [MeasurementSet.init, daySort, MeasurementDay.init])
      (by simp [MeasurementSet.init, daySort, MeasurementDay.init])).1

/-- C2: a run-loop update of an entry whose stored `current_rate` is the
sentinel `-1`, with a valid fetched ratio `r ≠ -1`, sets
`previous_rate = -1`, `current_rate = r` and `change = 0` (not `r - (-1)`),
and under a non-negative critical rate no alert fires on that first
observation. -/
theorem run_firstObservation (e : WatcherEntry) (ratio c : ℚ) (now : String)
    (hfirst : e.current_rate = -1) (hvalid : ratio ≠ -1) :
    (runUpdate e ratio c now).1.previous_rate = -1
    ∧ (runUpdate e ratio c now).1.current_rate = ratio
    ∧ (runUpdate e ratio c now).1.change = some 0
    ∧ (0 ≤ c → (runUpdate e ratio c now).2 = false) := by
  have h1 : (runUpdate e ratio c now).1.previous_rate = -1 := by
    simp only [runUpdate, if_neg hvalid]
    exact hfirst
  have h2 : (runUpdate e ratio c now).1.current_rate = ratio := by
    simp only [runUpdate, if_neg hvalid]
  have h3 : (runUpdate e ratio c now).1.change = some 0 := by
    simp only [runUpdate, computedChange, if_neg hvalid, if_pos hfirst]
  have h4 : 0 ≤ c → (runUpdate e ratio c now).2 = false := by
    intro hc
    simp only [runUpdate, computedChange, if_neg hvalid, if_pos hfirst,
      decide_eq_false_iff_not, not_lt]
    exact hc
  exact ⟨h1, h2, h3, h4⟩

/-- C2 witness: the first-observation theorem at the fresh entry,
`ratio = 1/5`, threshold `1/10`. -/
theorem run_firstObservation_witness :
    freshEntry.current_rate = -1 ∧ ((1 : ℚ)/5) ≠ -1
    ∧ ((runUpdate freshEntry (1/5) (1/10) "t").1.previous_rate = -1
        ∧ (runUpdate freshEntry (1/5) (1/10) "t").1.current_rate = 1/5
        ∧ (runUpdate freshEntry (1/5) (1/10) "t").1.change = some 0
        ∧ (0 ≤ (1 : ℚ)/10 → (runUpdate freshEntry (1/5) (1/10) "t").2 = false)) :=
  ⟨rfl, by norm_num,
    run_firstObservation freshEntry (1/5) (1/10) "t" rfl (by norm_num)⟩

/-- C3: in the run loop's alert decision (reached when the fetched ratio is not
the no-data sentinel), the Notifier is invoked and the alert record written iff
the computed change is strictly greater than `critical_anomaly_rate`; a change
exactly equal to the threshold does not alert, and a negative change never
alerts when the threshold is positive (as the configuration requires). -/
theorem run_alert_iff (e : WatcherEntry) (ratio c : ℚ) (now : String)
    (hvalid : ratio ≠ -1) :
    ((runUpdate e ratio c now).2 = true ↔ computedChange e ratio > c)
    ∧ (computedChange e ratio = c → (runUpdate e ratio c now).2 = false)
    ∧ (computedChange e ratio < 0 → 0 < c → (runUpdate e ratio c now).2 = false) := by
  simp only [runUpdate, if_neg hvalid]
  refine ⟨by simp, fun heq => ?_, fun hneg hc => ?_⟩
  · simp [heq]
  · simp only [decide_eq_false_iff_not, not_lt]
    exact le_of_lt (lt_trans hneg hc)

/-- C3 witness: the alert-decision theorem at an entry with stored rate `1/10`,
fetched ratio `3/10` and threshold `1/10`: the change `1/5` exceeds the
threshold and the alert fires. -/
theorem run_alert_iff_witness :
    ((3 : ℚ)/10) ≠ -1
    ∧ (((runUpdate { freshEntry with current_rate := 1/10 } (3/10) (1/10) "t").2 = true
          ↔ computedChange { freshEntry with current_rate := 1/10 } (3/10) > 1/10)
        ∧ (computedChange { freshEntry with current_rate := 1/10 } (3/10) = 1/10 →
            (runUpdate { freshEntry with current_rate := 1/10 } (3/10) (1/10) "t").2 = false)
        ∧ (computedChange { freshEntry with current_rate := 1/10 } (3/10) < 0 → (0:ℚ) < 1/10 →
            (runUpdate { freshEntry with current_rate := 1/10 } (3/10) (1/10) "t").2 = false)) :=
  ⟨by norm_num,
    run_alert_iff { freshEntry with current_rate := 1/10 } (3/10) (1/10) "t" (by norm_num)⟩

/-- C5: when the fetched ratio is the no-data sentinel `-1`, the run-loop
update touches only `last_check`: the resulting entry is the old one with
`last_check := now`, every other field (`previous_rate`, `current_rate`,
`change`, `last_update`) unchanged, and no alert fires. -/
theorem run_noData_frame (e : WatcherEntry) (ratio c : ℚ) (now : String)
    (hnodata : ratio = -1) :
    runUpdate e ratio c now = ({ e with last_check := some now }, false) := by
  simp only [runUpdate, if_pos hnodata]

/-- C5 witness: the no-data frame theorem at the fresh entry and ratio `-1`. -/
theorem run_noData_frame_witness :
    ((-1 : ℚ) = -1)
    ∧ runUpdate freshEntry (-1) (1/10) "t" = ({ freshEntry with last_check := some "t" }, false) :=
  ⟨rfl, run_noData_frame freshEntry (-1) (1/10) "t" rfl⟩

/-- C6 counterexample: after a first-observation update (entry fresh at
sentinel `-1`, fetched ratio `1/5`), `change` is present and equals `0`, but
`current_rate - previous_rate = 1/5 - (-1) = 6/5`, so the claimed invariant
`change = current_rate - previous_rate`, preserved by every update including
the first observation, is false at this concrete input. -/
theorem change_invariant_counterexample :
    (runUpdate freshEntry (1/5) (1/10) "t").1.change
      ≠ some ((runUpdate freshEntry (1/5) (1/10) "t").1.current_rate
              - (runUpdate freshEntry (1/5) (1/10) "t").1.previous_rate) := by
  simp only [runUpdate, computedChange, freshEntry]
  norm_num

/-- C6 amended: for every run-loop update with a valid fetched ratio
(`ratio ≠ -1`), if the entry had already been measured (`current_rate ≠ -1`)
then the stored `change` equals `current_rate - previous_rate` of the updated
entry; on a first observation (`current_rate = -1`) the stored `change` is `0`,
which differs from `current_rate - previous_rate` whenever `ratio ≠ -1`. -/
theorem change_invariant_amended (e : WatcherEntry) (ratio c : ℚ) (now : String)
    (hvalid : ratio ≠ -1) :
    (e.current_rate ≠ -1 →
      (runUpdate e ratio c now).1.change
        = some ((runUpdate e ratio c now).1.current_rate
                - (runUpdate e ratio c now).1.previous_rate))
    ∧ (e.current_rate = -1 → (runUpdate e ratio c now).1.change = some 0) := by
  constructor
  · intro hseen
    simp only [runUpdate, computedChange, if_neg hvalid, if_neg hseen]
  · intro hfirst
    simp only [runUpdate, computedChange, if_neg hvalid, if_pos hfirst]

/-- C6 witness: the amended change invariant at an entry with stored rate
`1/10` and fetched ratio `3/10`. -/
theorem change_invariant_amended_witness :
    ((3 : ℚ)/10) ≠ -1
    ∧ (({ freshEntry with current_rate := (1:ℚ)/10 } : WatcherEntry).current_rate ≠ -1 →
        (runUpdate { freshEntry with current_rate := 1/10 } (3/10) (1/10) "t").1.change
          = some ((runUpdate { freshEntry with current_rate := 1/10 } (3/10) (1/10) "t").1.current_rate
                  - (runUpdate { freshEntry with current_rate := 1/10 } (3/10) (1/10) "t").1.previous_rate)) :=
  ⟨by norm_num,
    (change_invariant_amended { freshEntry with current_rate := 1/10 } (3/10) (1/10) "t"
      (by norm_num)).1⟩

theorem allocFrom_length : ∀ (n : Nat) (c : ℤ), (allocFrom c n).length = n
  | 0, _ => rfl
  | n + 1, c => by simp [allocFrom, allocFrom_length n]

theorem addRecord_keys {days d2 : List (ℤ × DayCounts)} {m : ListApiRecord}
    (h : addRecord days m = some d2) : d2.map Prod.fst = days.map Prod.fst := by
  unfold addRecord at h
  split at h
  · cases h
    rw [List.map_map]
    apply List.map_congr_left
    intro p _
    by_cases hp : p.1 = m.start_day <;> simp [hp]
  · simp at h

theorem foldRecords_keys :
    ∀ (rs : List ListApiRecord) (days d2 : List (ℤ × DayCounts)),
      foldRecords days rs = some d2 → d2.map Prod.fst = days.map Prod.fst
  | [], _, _, h => by cases h; rfl
  | m :: ms, days, d2, h => by
    unfold foldRecords at h
    cases hadd : addRecord days m with
    | none => rw [hadd] at h; simp at h
    | some days2 =>
      rw [hadd] at h
      rw [foldRecords_keys ms days2 d2 h, addRecord_keys hadd]

theorem init_start_day {m a f c d : ℤ} {dom : Option String} {b : MeasurementDay}
    (h : MeasurementDay.init m a f d dom c = some b) : b.start_day = d := by
  unfold MeasurementDay.init at h
  split at h
  · cases h; rfl
  · simp at h

theorem metricsToDays_startDays :
    ∀ (l : List (ℤ × DayCounts)) (dom : Option String) (bs : List MeasurementDay),
      metricsToDays dom l = some bs →
      bs.map (fun b => b.start_day) = l.map Prod.fst
  | [], _, _, h => by cases h; rfl
  | (d, metrics) :: rest, dom, bs, h => by
    unfold metricsToDays at h
    cases hinit : MeasurementDay.init metrics.measurement_count metrics.anomaly_count
        metrics.failure_count d dom metrics.confirmed_count with
    | none => rw [hinit] at h; simp at h
    | some b =>
      rw [hinit] at h
      cases hrest : metricsToDays dom rest with
      | none => rw [hrest] at h; simp at h
      | some bs2 =>
        rw [hrest] at h
        cases h
        simp only [List.map_cons, init_start_day hinit,
          metricsToDays_startDays rest dom bs2 hrest]

theorem init_zero (d : ℤ) (dom : Option String) :
    MeasurementDay.init 0 0 0 d dom 0 = some (zeroBucket d dom) := by
  simp [MeasurementDay.init, zeroBucket]

theorem metricsToDays_zeroAlloc :
    ∀ (n : Nat) (c : ℤ) (dom : Option String),
      metricsToDays dom (allocFrom c n)
        = some ((allocFrom c n).map (fun p => zeroBucket p.1 dom))
  | 0, _, _ => rfl
  | n + 1, c, dom => by
    simp [allocFrom, metricsToDays, DayCounts.zero, init_zero,
      metricsToDays_zeroAlloc n (c + 1) dom]

/-- C4: with a valid range `since ≤ until`, the paginated-mode adapter with an
exhausted continuation chain and zero remote records returns exactly
`until - since + 1` Day Buckets, one per calendar day of `[since, until]` in
ascending order, each with all four counts `0` and all derived ratios absent;
and for every chain of fetched records, whenever the adapter returns a bucket
list at all, that list has exactly one bucket per calendar day of the range. -/
theorem listApi_one_bucket_per_day (sinceDay untilDay : ℤ) (domain : Option String)
    (h : sinceDay ≤ untilDay) :
    (∃ bs, get_measurements_list_api sinceDay untilDay domain (fun _ => .records [])
        = .ok (.days bs)
      ∧ bs.length = (untilDay - sinceDay + 1).toNat
      ∧ bs.map (fun b => b.start_day) = calendarDays sinceDay untilDay
      ∧ ∀ b ∈ bs, b.measurement_count = 0 ∧ b.anomaly_count = 0 ∧ b.failure_count = 0
          ∧ b.confirmed_count = 0 ∧ b.anomaly_ratio = none ∧ b.failure_ratio = none
          ∧ b.confirmed_ratio = none ∧ b.weird_behavior_ratio = none)
    ∧ (∀ (rs : List ListApiRecord) (bs : List MeasurementDay),
        get_measurements_list_api sinceDay untilDay domain (fun _ => .records rs)
          = .ok (.days bs) →
        bs.map (fun b => b.start_day) = calendarDays sinceDay untilDay
        ∧ bs.length = (untilDay - sinceDay + 1).toNat) := by
  constructor
  · refine ⟨(allocDays sinceDay untilDay).map (fun p => zeroBucket p.1 domain), ?_, ?_, ?_, ?_⟩
    · simp only [get_measurements_list_api, if_pos h, foldRecords, allocDays,
        metricsToDays_zeroAlloc]
    · rw [List.length_map, allocDays, allocFrom_length]
    · rw [List.map_map, calendarDays]
      apply List.map_congr_left
      intro p _
      rfl
    · intro b hb
      rw [List.mem_map] at hb
      obtain ⟨p, _, rfl⟩ := hb
      exact ⟨rfl, rfl, rfl, rfl, rfl, rfl, rfl, rfl⟩
  · intro rs bs heq
    simp only [get_measurements_list_api, if_pos h] at heq
    split at heq
    · simp at heq
    · rename_i days2 hfold
      split at heq
      · simp at heq
      · rename_i bs2 hmet
        simp only [Except.ok.injEq, AdapterResult.days.injEq] at heq
        subst heq
        have hmap : bs2.map (fun b => b.start_day) = calendarDays sinceDay untilDay := by
          rw [metricsToDays_startDays days2 domain bs2 hmet, foldRecords_keys rs _ _ hfold]
          rfl
        refine ⟨hmap, ?_⟩
        have hl : (bs2.map (fun b => b.start_day)).length
            = (calendarDays sinceDay untilDay).length := by rw [hmap]
        rw [List.length_map] at hl
        rw [hl, calendarDays, List.length_map, allocDays, allocFrom_length]

/-- C4 witness: the bucket-per-day theorem at the concrete range of days 0..2
(three calendar days) with zero remote records. -/
theorem listApi_one_bucket_per_day_witness :
    (0 : ℤ) ≤ 2
    ∧ (∃ bs, get_measurements_list_api 0 2 (some "a") (fun _ => .records [])
        = .ok (.days bs)
      ∧ bs.length = ((2 : ℤ) - 0 + 1).toNat
      ∧ bs.map (fun b => b.start_day) = calendarDays 0 2
      ∧ ∀ b ∈ bs, b.measurement_count = 0 ∧ b.anomaly_count = 0 ∧ b.failure_count = 0
          ∧ b.confirmed_count = 0 ∧ b.anomaly_ratio = none ∧ b.failure_ratio = none
          ∧ b.confirmed_ratio = none ∧ b.weird_behavior_ratio = none) :=
  ⟨by norm_num, (listApi_one_bucket_per_day 0 2 (some "a") (by norm_num)).1⟩

/-- C7 counterexample: called with `since = 1 > until = 0`, both adapter fetch
operations produce a raised exception (the failed `assert since <= until`),
not an `errorString` value result as the claim states; the error strings
NETWORK_ERROR / BAD_ARGUMENTS / UNKNOWN are returned in the `ok` channel,
while this failure is in the exception channel. -/
theorem invalidRange_raises :
    isRaised (get_measurements 1 0 none "VE" none oracle0) = true
    ∧ isRaised (get_measurements_list_api 1 0 none fetch0) = true
    ∧ isRaised (.ok (.errorString "network_error")) = false := by
  refine ⟨?_, ?_, rfl⟩ <;> rfl

/-- C7 amended: for every call to either fetch operation with `since > until`,
the call fails before performing any I/O -- the outcome is the raised range
AssertionError whatever the remote oracle would answer -- but, unlike the
other adapter error kinds, this failure is a raised exception, not a value
result. -/
theorem invalidRange_before_io (since until_d : ℤ) (domain : Option String)
    (probe_cc : String) (test_name : Option String)
    (oracle : AggParams → AggResponse) (fetch : Unit → PaginationOutcome)
    (h : until_d < since) :
    get_measurements since until_d domain probe_cc test_name oracle
      = .error assertRangeMsg
    ∧ get_measurements_list_api since until_d domain fetch = .error assertRangeMsg := by
  constructor
  · simp only [get_measurements, if_neg (not_le.mpr h)]
  · simp only [get_measurements_list_api, if_neg (not_le.mpr h)]

/-- C7 witness: the range-assert theorem at `since = 1, until = 0` with the
fixed oracles. -/
theorem invalidRange_before_io_witness :
    (0 : ℤ) < 1
    ∧ get_measurements 1 0 none "VE" none oracle0 = .error assertRangeMsg
    ∧ get_measurements_list_api 1 0 none fetch0 = .error assertRangeMsg :=
  ⟨by norm_num, invalidRange_before_io 1 0 none "VE" none oracle0 fetch0 (by norm_num)⟩

theorem init_relabel (m a f c d : ℤ) (dom1 dom2 : Option String) :
    MeasurementDay.init m a f d dom2 c
      = (MeasurementDay.init m a f d dom1 c).map (relabelDay dom2) := by
  unfold MeasurementDay.init
  split
  · rfl
  · rfl

theorem aggRowsToDays_relabel (dom1 dom2 : Option String) :
    ∀ rows : List AggRow,
      aggRowsToDays dom2 rows
        = (aggRowsToDays dom1 rows).map (List.map (relabelDay dom2))
  | [] => rfl
  | r :: rest => by
    unfold aggRowsToDays
    rw [init_relabel r.measurement_count r.anomaly_count r.failure_count r.confirmed_count
      r.measurement_start_day dom1 dom2]
    cases MeasurementDay.init r.measurement_count r.anomaly_count r.failure_count
        r.measurement_start_day dom1 r.confirmed_count with
    | none => rfl
    | some d =>
      simp only [Option.map_some]
      rw [aggRowsToDays_relabel dom1 dom2 rest]
      cases aggRowsToDays dom1 rest with
      | none => rfl
      | some ds => rfl

/-- C10: the pre-aggregated-mode fetch ignores its `domain` argument when
building the remote query (the `if domain:` body is `pass`), so for any two
domain values and the same remote behaviour the outcomes agree up to
relabelling each returned Day Bucket's stored input identifier: counts, days
and ratios are identical and describe all inputs, not the requested one. -/
theorem get_measurements_ignores_domain (since until_d : ℤ) (d1 d2 : Option String)
    (probe_cc : String) (test_name : Option String) (oracle : AggParams → AggResponse) :
    get_measurements since until_d d2 probe_cc test_name oracle
      = relabelReturn d2 (get_measurements since until_d d1 probe_cc test_name oracle) := by
  unfold get_measurements
  split
  · set req := oracle
      { since := since
        until_d := until_d
        probe_cc := probe_cc
        axis_x := "measurement_start_day"
        test_name := if strTruthy test_name then test_name else none } with hreq
    by_cases h200 : req.status_code ≠ 200
    · simp only [if_pos h200, relabelReturn]
    · simp only [if_neg h200]
      by_cases herr : req.error = true
      · simp only [if_pos herr, relabelReturn]
      · simp only [if_neg herr]
        cases req.result with
        | none => rfl
        | some rows =>
          cases rows with
          | nil => rfl
          | cons r rest =>
            dsimp only
            rw [aggRowsToDays_relabel d1 d2 (r :: rest)]
            cases aggRowsToDays d1 (r :: rest) with
            | none => rfl
            | some ds => rfl
  · rfl

/-- C8 counterexample: a store that parses but is missing the `list_file` key
is not a valid configuration, and `load` on it does fail with the
ConfigUnavailable status -- but the `active` field, read before the failure,
is updated away from its default `true` to the store's `false`: the
configuration IS partially updated from the bad store, refuting the claim
that every field keeps its default on such a failure. -/
theorem load_partial_update_counterexample :
    (PermaConfig.fresh.load (.parsed badStore)).state = COULD_NOT_ACCESS_CONFIG_FILE
    ∧ PermaConfig.fresh.active = true
    ∧ (PermaConfig.fresh.load (.parsed badStore)).active = false :=
  ⟨rfl, rfl, rfl⟩

/-- C8 amended: a failed `load` always surfaces ConfigUnavailable as a status
(in the embedding `load` is a total function -- no exception escapes the
caught `try`); when the backing store cannot be read or parsed as JSON at
all, every field keeps its previous (default) value; but when the store
parses and merely lacks a required key, the fields read before the missing
key retain their newly loaded values and only the remaining fields keep
their defaults (shown here for the first two read positions). -/
theorem load_failure_amended (c : PermaConfig) (d : ConfigData) :
    (PermaConfig.load c .unreadable = { c with state := COULD_NOT_ACCESS_CONFIG_FILE })
    ∧ (d.active = none →
        PermaConfig.load c (.parsed d) = { c with state := COULD_NOT_ACCESS_CONFIG_FILE })
    ∧ (∀ a, d.active = some a → d.list_file = none →
        PermaConfig.load c (.parsed d)
          = { c with active := a, state := COULD_NOT_ACCESS_CONFIG_FILE }) := by
  refine ⟨rfl, fun h => ?_, fun a ha hl => ?_⟩
  · simp only [PermaConfig.load, h]
  · simp only [PermaConfig.load, ha, hl]

/-- C8 witness: the amended load theorem at the fresh configuration and the
concrete store missing every key after `active`. -/
theorem load_failure_amended_witness :
    badStore.active = some false ∧ badStore.list_file = none
    ∧ PermaConfig.fresh.load (.parsed badStore)
        = { PermaConfig.fresh with active := false, state := COULD_NOT_ACCESS_CONFIG_FILE } :=
  ⟨rfl, rfl, (load_failure_amended PermaConfig.fresh badStore).2.2 false rfl rfl⟩

end AOC
